import Mathlib

/-!
Verification of the track-resolution core of the Spotify-Song-Analyzer
repository (`music.py`), as a shallow embedding in Lean 4.

The remote Spotify client is modelled as a record of functions whose
results are `Except String _` values: `Except.error e` stands for the
Python client raising an exception whose description is `e`, and
`Except.ok v` for a normal return.  Numeric audio-feature values are
modelled with `ℚ`.  Python truthiness of optional strings (None and ""
are falsy) is made explicit by `truthyStr`.
-/

/-- Case-folded character list of a string, modelling Python `str.lower()`
on the relevant (ASCII) alphabet. -/
def lowerChars (s : String) : List Char :=
  s.data.map Char.toLower

/-- Does `hay` start with `needle`?  (Helper for Python `in` on strings.) -/
def startsWithChars : List Char → List Char → Bool
  | [], _ => true
  | _ :: _, [] => false
  | a :: as, b :: bs => a == b && startsWithChars as bs

/-- Substring containment on character lists, modelling Python `needle in hay`. -/
def containsSub (needle : List Char) : List Char → Bool
  | [] => startsWithChars needle []
  | b :: bs => startsWithChars needle (b :: bs) || containsSub needle bs

/-- Python `needle.lower() in hay.lower()`. -/
def strContainsLower (needle hay : String) : Bool :=
  containsSub (lowerChars needle) (lowerChars hay)

/-- Python truthiness of an optional string: `None` and `""` are falsy. -/
def truthyStr (p : Option String) : Bool :=
  !(p.getD "").isEmpty

/-- One raw search-result entry as returned by the catalog service
(the fields of the `track` dict that `music.py` reads). -/
structure SpotifyTrack where
  id : String
  name : String
  /-- names of the contributing artists (`track['artists'][i]['name']`) -/
  artists : List String
  album_name : String
  /-- album image URLs in order (`track['album']['images'][i]['url']`) -/
  album_images : List String
  album_release_date : String
  preview_url : Option String
  popularity : Int
  duration_ms : Nat
  external_url_spotify : String
  uri : String
deriving DecidableEq, Repr

/-- Raw audio-features record (`features[0]`); every field the code reads
via `.get` is optional. -/
structure RawAudioFeatures where
  danceability : Option ℚ
  energy : Option ℚ
  speechiness : Option ℚ
  acousticness : Option ℚ
  instrumentalness : Option ℚ
  liveness : Option ℚ
  valence : Option ℚ
  tempo : Option ℚ
  loudness : Option ℚ
  key : Option ℚ
  mode : Option ℚ
  time_signature : Option ℚ
deriving DecidableEq, Repr

/-- The audio-features dictionary built by `get_audio_features`. -/
structure AudioFeatures where
  danceability : ℚ
  energy : ℚ
  speechiness : ℚ
  acousticness : ℚ
  instrumentalness : ℚ
  liveness : ℚ
  valence : ℚ
  tempo : ℚ
  loudness : ℚ
  key : ℚ
  mode : ℚ
  time_signature : ℚ
deriving DecidableEq, Repr

/-- The Spotify client: `search(q, type, limit, market)` and
`audio_features(track_id)`.  `Except.error e` models a raised exception
with description `e`; `audio_features` returns a list whose entries may
be `None`. -/
structure Client where
  search : String → String → Nat → String → Except String (List SpotifyTrack)
  audio_features : String → Except String (List (Option RawAudioFeatures))

/-- A single-quote character as a string (used in the not-found message). -/
def apos : String :=
  ⟨[Char.ofNat 39]⟩

/-- The three search queries of `search_track_with_preview`, in priority
order. -/
def search_queries (track_name artist_name : String) : List String :=
  ["track:\"" ++ track_name ++ "\" artist:\"" ++ artist_name ++ "\"",
   track_name ++ " " ++ artist_name,
   track_name]

/-- `any(artist_name.lower() in artist['name'].lower() for artist in track['artists'])`. -/
def artist_match (artist_name : String) (t : SpotifyTrack) : Bool :=
  t.artists.any (fun a => strContainsLower artist_name a)

/-- `track_name.lower() in track['name'].lower()`. -/
def track_match (track_name : String) (t : SpotifyTrack) : Bool :=
  strContainsLower track_name t.name

/-- Truthiness of `track['preview_url']`. -/
def hasPreview (t : SpotifyTrack) : Bool :=
  truthyStr t.preview_url

/-- The first-pass predicate: `artist_match and track_match and track['preview_url']`. -/
def exact_match (track_name artist_name : String) (t : SpotifyTrack) : Bool :=
  artist_match artist_name t && track_match track_name t && hasPreview t

/-- The standardized track info dictionary built by `create_track_info`. -/
structure TrackInfo where
  id : String
  name : String
  artist : String
  album : String
  album_image : Option String
  preview_url : Option String
  popularity : Int
  release_date : String
  duration_ms : Nat
  external_url : String
  uri : String
deriving DecidableEq, Repr

/-- `create_track_info(track)`.  (`track['artists'][0]['name']` is modelled
with `headD ""`; the service always supplies at least one artist.) -/
def create_track_info (t : SpotifyTrack) : TrackInfo :=
  { id := t.id
    name := t.name
    artist := t.artists.headD ""
    album := t.album_name
    album_image := t.album_images.head?
    preview_url := t.preview_url
    popularity := t.popularity
    release_date := t.album_release_date
    duration_ms := t.duration_ms
    external_url := t.external_url_spotify
    uri := t.uri }

/-- The three selection passes `search_track_with_preview` runs inside a
non-empty result set: first exact match with preview, then any track with
preview, then the first result. -/
def select_candidate (track_name artist_name : String) (items : List SpotifyTrack) :
    Option SpotifyTrack :=
  match items.find? (exact_match track_name artist_name) with
  | some t => some t
  | none =>
    match items.find? hasPreview with
    | some t => some t
    | none => items.head?

/-- The query loop of `search_track_with_preview`: try each query with
`limit=10, market='US'`; an empty result set moves on to the next query; a
raised exception is caught by the surrounding handler, making the whole
function return `None`. -/
def searchLoop (sp : Client) (track_name artist_name : String) :
    List String → Option TrackInfo
  | [] => none
  | q :: qs =>
    match sp.search q "track" 10 "US" with
    | Except.error _ => none
    | Except.ok items =>
      if items.isEmpty then searchLoop sp track_name artist_name qs
      else (select_candidate track_name artist_name items).map create_track_info

/-- `search_track_with_preview(sp, track_name, artist_name)`. -/
def search_track_with_preview (sp : Client) (track_name artist_name : String) :
    Option TrackInfo :=
  searchLoop sp track_name artist_name (search_queries track_name artist_name)

/-- Uppercase hexadecimal digit, as `urllib.parse.quote` emits. -/
def hexDigit (n : Nat) : Char :=
  if n < 10 then Char.ofNat (48 + n) else Char.ofNat (55 + n)

/-- Percent-encoding of one byte: `%XX`. -/
def percentByte (b : Nat) : List Char :=
  [Char.ofNat 37, hexDigit (b / 16), hexDigit (b % 16)]

/-- UTF-8 byte sequence of a character (code points up to U+10FFFF). -/
def utf8Bytes (c : Char) : List Nat :=
  let n := c.toNat
  if n < 128 then [n]
  else if n < 2048 then [192 + n / 64, 128 + n % 64]
  else if n < 65536 then [224 + n / 4096, 128 + (n / 64) % 64, 128 + n % 64]
  else [240 + n / 262144, 128 + (n / 4096) % 64, 128 + (n / 64) % 64, 128 + n % 64]

/-- Characters `urllib.parse.quote` leaves as-is with its default
`safe='/'`: ASCII letters, digits, `_ . - ~` and `/`. -/
def quoteSafe (c : Char) : Bool :=
  c.isAlpha || c.isDigit || c == Char.ofNat 95 || c == '.' || c == '-' || c == '~' || c == '/'

/-- `urllib.parse.quote(s)`. -/
def quote (s : String) : String :=
  ⟨s.data.foldr
    (fun c acc => (if quoteSafe c then [c] else (utf8Bytes c).flatMap percentByte) ++ acc) []⟩

/-- The alternatives dictionary built by `get_alternative_preview_url`. -/
structure Alternatives where
  youtube_search : String
  youtube_music : String
  soundcloud : String
deriving DecidableEq, Repr

/-- `get_alternative_preview_url(track_name, artist_name)`. -/
def get_alternative_preview_url (track_name artist_name : String) : Alternatives :=
  { youtube_search :=
      "https://www.youtube.com/results?search_query=" ++
        quote (track_name ++ " " ++ artist_name ++ " audio")
    youtube_music :=
      "https://music.youtube.com/search?q=" ++ quote (track_name ++ " " ++ artist_name)
    soundcloud :=
      "https://soundcloud.com/search?q=" ++ quote (track_name ++ " " ++ artist_name) }

/-- The fixed default feature bundle `get_audio_features` returns when the
service has no usable data or the call raises. -/
def default_features : AudioFeatures :=
  { danceability := 50
    energy := 50
    speechiness := 10
    acousticness := 30
    instrumentalness := 20
    liveness := 15
    valence := 50
    tempo := 120
    loudness := -5
    key := 0
    mode := 1
    time_signature := 4 }

/-- The success branch of `get_audio_features`: each 0-1 proportion is
`audio_data.get(field, 0) * 100`; the remaining fields pass through with
per-field defaults. -/
def scale_features (a : RawAudioFeatures) : AudioFeatures :=
  { danceability := a.danceability.getD 0 * 100
    energy := a.energy.getD 0 * 100
    speechiness := a.speechiness.getD 0 * 100
    acousticness := a.acousticness.getD 0 * 100
    instrumentalness := a.instrumentalness.getD 0 * 100
    liveness := a.liveness.getD 0 * 100
    valence := a.valence.getD 0 * 100
    tempo := a.tempo.getD 120
    loudness := a.loudness.getD (-5)
    key := a.key.getD 0
    mode := a.mode.getD 1
    time_signature := a.time_signature.getD 4 }

/-- `get_audio_features(sp, track_id)`: use the service record when
`features and features[0]` is truthy, otherwise (including a raised
exception) the default bundle. -/
def get_audio_features (sp : Client) (track_id : String) : AudioFeatures :=
  match sp.audio_features track_id with
  | Except.error _ => default_features
  | Except.ok features =>
    match features.head? with
    | some (some audio_data) => scale_features audio_data
    | _ => default_features

/-- The complete track record `get_track_preview` assembles: the search
result dict with `audio_features` and `alternatives` attached. -/
structure CanonicalTrack where
  info : TrackInfo
  audio_features : AudioFeatures
  alternatives : Alternatives
deriving DecidableEq, Repr

/-- The failure message for a track not found on any query tier. -/
def notFoundMsg (track_name artist_name : String) : String :=
  "Track " ++ apos ++ track_name ++ apos ++ " by " ++ apos ++ artist_name ++ apos ++
    " not found on Spotify."

/-- The fixed advisory attached when the chosen candidate has no preview URL. -/
def previewAdvisory : String :=
  "Spotify preview not available. Alternative listening options provided below."

/-- The failure message when the client could not be initialized. -/
def clientFailMsg : String :=
  "Failed to initialize Spotify client. Please check your credentials."

/-- `get_track_preview(track_name, artist_name)`.  Client initialization is
modelled by the `Option Client` argument (`none` = `initialize_spotify_client`
returned `None`). -/
def get_track_preview (sp? : Option Client) (track_name artist_name : String) :
    Option CanonicalTrack × Option String :=
  match sp? with
  | none => (none, some clientFailMsg)
  | some sp =>
    match search_track_with_preview sp track_name artist_name with
    | none => (none, some (notFoundMsg track_name artist_name))
    | some track_info =>
      let audio_features := get_audio_features sp track_info.id
      let alternatives := get_alternative_preview_url track_name artist_name
      let track : CanonicalTrack :=
        { info := track_info, audio_features := audio_features, alternatives := alternatives }
      if truthyStr track_info.preview_url then (some track, none)
      else (some track, some previewAdvisory)

/-- `create_spotify_embed(track_id)`. -/
def create_spotify_embed (track_id : String) : String :=
  "\n    <iframe src=\"https://open.spotify.com/embed/track/" ++ track_id ++
    "\" \n            width=\"100%\" \n            height=\"152\" \n            frameborder=\"0\" \n            allowfullscreen=\"\" \n            allow=\"autoplay; clipboard-write; encrypted-media; fullscreen; picture-in-picture\" \n            loading=\"lazy\"\n            style=\"border-radius: 12px;\">\n    </iframe>\n    "

/-! Concrete fixtures used by witness and counterexample theorems. -/

/-- A search result whose names match the query "song"/"artist" and which
has a preview URL. -/
def wTrackP : SpotifyTrack :=
  { id := "id-p"
    name := "song"
    artists := ["artist"]
    album_name := "album"
    album_images := ["img"]
    album_release_date := "2020-01-01"
    preview_url := some "https://p.scdn.co/x"
    popularity := 70
    duration_ms := 200000
    external_url_spotify := "https://open.spotify.com/track/id-p"
    uri := "spotify:track:id-p" }

/-- A matching search result without a preview URL. -/
def wTrackNoPrev : SpotifyTrack :=
  { wTrackP with id := "id-n", preview_url := none }

/-- A non-matching search result with a preview URL. -/
def wTrackOther : SpotifyTrack :=
  { wTrackP with id := "id-o", name := "zzz", artists := ["q"], preview_url := some "pv2" }

/-- A client whose every search returns one preview-bearing match and whose
feature call raises. -/
def wClientOk : Client :=
  { search := fun _ _ _ _ => Except.ok [wTrackP]
    audio_features := fun _ => Except.error "down" }

/-- A client whose every call raises. -/
def errClient : Client :=
  { search := fun _ _ _ _ => Except.error "boom"
    audio_features := fun _ => Except.error "boom" }

/-- A client whose tier-(b) query succeeds with a usable candidate while
every other query raises a transport error. -/
def tierClient : Client :=
  { search := fun q _ _ _ =>
      if q = "song artist" then Except.ok [wTrackP] else Except.error "network down"
    audio_features := fun _ => Except.error "down" }

/-- A raw feature record with every field present. -/
def w5raw : RawAudioFeatures :=
  { danceability := some (1/2)
    energy := some 1
    speechiness := some 0
    acousticness := some (3/10)
    instrumentalness := some (1/4)
    liveness := some (1/5)
    valence := some (1/10)
    tempo := some 130
    loudness := some (-7)
    key := some 5
    mode := some 0
    time_signature := some 3 }

/-- A client whose feature call returns `w5raw`. -/
def w5client : Client :=
  { search := fun _ _ _ _ => Except.ok []
    audio_features := fun _ => Except.ok [some w5raw] }

/-- A raw feature record with every field absent. -/
def w10raw : RawAudioFeatures :=
  { danceability := none, energy := none, speechiness := none, acousticness := none
    instrumentalness := none, liveness := none, valence := none, tempo := none
    loudness := none, key := none, mode := none, time_signature := none }

/-- A client whose feature call returns `w10raw`. -/
def w10client : Client :=
  { search := fun _ _ _ _ => Except.ok []
    audio_features := fun _ => Except.ok [some w10raw] }

/-- The record `get_track_preview` assembles for `wClientOk` on
("song", "artist"). -/
def w9track : CanonicalTrack :=
  { info := create_track_info wTrackP
    audio_features := default_features
    alternatives := get_alternative_preview_url "song" "artist" }

/-- Each proportion the raw record carries lies in the unit interval. -/
def unitProps (a : RawAudioFeatures) : Prop :=
  (∀ x, a.danceability = some x → 0 ≤ x ∧ x ≤ 1) ∧
  (∀ x, a.energy = some x → 0 ≤ x ∧ x ≤ 1) ∧
  (∀ x, a.speechiness = some x → 0 ≤ x ∧ x ≤ 1) ∧
  (∀ x, a.acousticness = some x → 0 ≤ x ∧ x ≤ 1) ∧
  (∀ x, a.instrumentalness = some x → 0 ≤ x ∧ x ≤ 1) ∧
  (∀ x, a.liveness = some x → 0 ≤ x ∧ x ≤ 1) ∧
  (∀ x, a.valence = some x → 0 ≤ x ∧ x ≤ 1)

/-- Every proportion field of the feature bundle lies in [0, 100]. -/
def inRange (f : AudioFeatures) : Prop :=
  (0 ≤ f.danceability ∧ f.danceability ≤ 100) ∧
  (0 ≤ f.energy ∧ f.energy ≤ 100) ∧
  (0 ≤ f.speechiness ∧ f.speechiness ≤ 100) ∧
  (0 ≤ f.acousticness ∧ f.acousticness ≤ 100) ∧
  (0 ≤ f.instrumentalness ∧ f.instrumentalness ≤ 100) ∧
  (0 ≤ f.liveness ∧ f.liveness ≤ 100) ∧
  (0 ≤ f.valence ∧ f.valence ≤ 100)

/-! Helper lemmas. -/

theorem startsWithChars_self_append (xs ys : List Char) :
    startsWithChars xs (xs ++ ys) = true := by
  induction xs with
  | nil => rfl
  | cons a as ih => simp [startsWithChars, ih]

theorem containsSub_of_startsWith (needle hay : List Char)
    (h : startsWithChars needle hay = true) : containsSub needle hay = true := by
  cases hay with
  | nil => simpa [containsSub] using h
  | cons b bs => simp [containsSub, h]

theorem containsSub_middle (needle l r : List Char) :
    containsSub needle (l ++ needle ++ r) = true := by
  induction l with
  | nil =>
    simpa using containsSub_of_startsWith needle (needle ++ r)
      (startsWithChars_self_append needle r)
  | cons b bs ih =>
    simpa [containsSub] using Or.inr ih

/-! Claim theorems. -/

/-- C1: `search_track_with_preview` builds exactly the three queries
(field-constrained title+artist, "title artist", title alone) in priority
order, runs each with `limit=10, market='US'`, moves past a tier exactly
when its result set is empty, and for the first tier whose result set is
non-empty proceeds to candidate selection with the remaining queries never
consulted (the result does not depend on them). -/
theorem c1_tiered_search (sp : Client) (track_name artist_name q : String)
    (qs : List String) (items : List SpotifyTrack)
    (hq : sp.search q "track" 10 "US" = Except.ok items) (hne : items ≠ []) :
    search_queries track_name artist_name =
      ["track:\"" ++ track_name ++ "\" artist:\"" ++ artist_name ++ "\"",
       track_name ++ " " ++ artist_name,
       track_name] ∧
    search_track_with_preview sp track_name artist_name =
      searchLoop sp track_name artist_name (search_queries track_name artist_name) ∧
    (∀ q2 qs2, sp.search q2 "track" 10 "US" = Except.ok [] →
      searchLoop sp track_name artist_name (q2 :: qs2) =
        searchLoop sp track_name artist_name qs2) ∧
    searchLoop sp track_name artist_name (q :: qs) =
      (select_candidate track_name artist_name items).map create_track_info := by
  refine ⟨rfl, rfl, ?_, ?_⟩
  · intro q2 qs2 h2
    simp [searchLoop, h2]
  · simp [searchLoop, hq, List.isEmpty_iff, hne]

/-- C1 witness: a client whose first query already returns a non-empty
result set resolves from that result set alone. -/
theorem c1_tiered_search_witness :
    search_queries "song" "artist" =
      ["track:\"song\" artist:\"artist\"", "song artist", "song"] ∧
    search_track_with_preview wClientOk "song" "artist" =
      searchLoop wClientOk "song" "artist" (search_queries "song" "artist") ∧
    (∀ q2 qs2, wClientOk.search q2 "track" 10 "US" = Except.ok [] →
      searchLoop wClientOk "song" "artist" (q2 :: qs2) =
        searchLoop wClientOk "song" "artist" qs2) ∧
    searchLoop wClientOk "song" "artist" ("track:\"song\" artist:\"artist\"" :: ["x"]) =
      (select_candidate "song" "artist" [wTrackP]).map create_track_info :=
  c1_tiered_search wClientOk "song" "artist" "track:\"song\" artist:\"artist\"" ["x"]
    [wTrackP] rfl (by simp)

/-- C2: inside a non-empty result set, selection returns the first
candidate (in service order) satisfying artist-substring AND
title-substring AND preview; failing that, the first candidate with a
preview; failing that, the very first candidate unconditionally. -/
theorem c2_candidate_selection (track_name artist_name : String)
    (items : List SpotifyTrack) :
    (∀ pre t post, items = pre ++ t :: post →
      exact_match track_name artist_name t = true →
      (∀ u ∈ pre, ¬ exact_match track_name artist_name u = true) →
      select_candidate track_name artist_name items = some t) ∧
    (∀ pre t post, items = pre ++ t :: post →
      (∀ u ∈ items, ¬ exact_match track_name artist_name u = true) →
      hasPreview t = true →
      (∀ u ∈ pre, ¬ hasPreview u = true) →
      select_candidate track_name artist_name items = some t) ∧
    ((∀ u ∈ items, ¬ exact_match track_name artist_name u = true) →
      (∀ u ∈ items, ¬ hasPreview u = true) →
      select_candidate track_name artist_name items = items.head?) := by
  refine ⟨?_, ?_, ?_⟩
  · intro pre t post hsplit hex hpre
    have hfind : items.find? (exact_match track_name artist_name) = some t := by
      rw [hsplit, List.find?_append, List.find?_eq_none.mpr hpre,
        List.find?_cons_of_pos _ hex]
      rfl
    simp [select_candidate, hfind]
  · intro pre t post hsplit hnone hprev hpre
    have hfind1 : items.find? (exact_match track_name artist_name) = none :=
      List.find?_eq_none.mpr hnone
    have hfind2 : items.find? hasPreview = some t := by
      rw [hsplit, List.find?_append, List.find?_eq_none.mpr hpre,
        List.find?_cons_of_pos _ hprev]
      rfl
    simp [select_candidate, hfind1, hfind2]
  · intro hnone1 hnone2
    simp [select_candidate, List.find?_eq_none.mpr hnone1, List.find?_eq_none.mpr hnone2]

/-- C2 witness: with a non-matching preview-bearing candidate listed after
a matching preview-less one, the second pass picks the preview-bearing
candidate. -/
theorem c2_candidate_selection_witness :
    select_candidate "song" "artist" [wTrackNoPrev, wTrackOther] = some wTrackOther :=
  (c2_candidate_selection "song" "artist" [wTrackNoPrev, wTrackOther]).2.1
    [wTrackNoPrev] wTrackOther [] rfl (by decide) (by decide) (by decide)

/-- C3 counterexample: with a client whose every call raises "boom", the
resolver returns the generic not-found report, which does not carry the
description of the raised exception — the exception is absorbed inside the
tiered search, not converted at the top level into a report carrying its
description. -/
theorem c3_counterexample :
    get_track_preview (some errClient) "song" "artist" =
      (none, some (notFoundMsg "song" "artist")) ∧
    containsSub "boom".data (notFoundMsg "song" "artist").data = false := by
  exact ⟨rfl, by decide⟩

/-- C3 (amended): `get_track_preview` always returns either
(record, optional advisory) or (absent, failure-reason) — no client
exception ever propagates — but a client exception raised during search is
caught inside the tiered search and reported as the generic not-found
failure, without the exception's description. -/
theorem c3_total_resolution (sp? : Option Client) (track_name artist_name : String) :
    ((∃ t adv, get_track_preview sp? track_name artist_name = (some t, adv)) ∨
      (∃ m, get_track_preview sp? track_name artist_name = (none, some m))) ∧
    (∀ sp e, sp? = some sp →
      sp.search ("track:\"" ++ track_name ++ "\" artist:\"" ++ artist_name ++ "\"")
          "track" 10 "US" = Except.error e →
      get_track_preview sp? track_name artist_name =
        (none, some (notFoundMsg track_name artist_name))) := by
  constructor
  · cases sp? with
    | none => exact Or.inr ⟨clientFailMsg, rfl⟩
    | some sp =>
      cases hs : search_track_with_preview sp track_name artist_name with
      | none => exact Or.inr ⟨notFoundMsg track_name artist_name, by simp [get_track_preview, hs]⟩
      | some info =>
        cases htr : truthyStr info.preview_url with
        | false =>
          exact Or.inl ⟨⟨info, get_audio_features sp info.id,
            get_alternative_preview_url track_name artist_name⟩,
            some previewAdvisory, by simp [get_track_preview, hs, htr]⟩
        | true =>
          exact Or.inl ⟨⟨info, get_audio_features sp info.id,
            get_alternative_preview_url track_name artist_name⟩,
            none, by simp [get_track_preview, hs, htr]⟩
  · intro sp e hsp herr
    subst hsp
    have hs : search_track_with_preview sp track_name artist_name = none := by
      simp [search_track_with_preview, search_queries, searchLoop, herr]
    simp [get_track_preview, hs]

/-- C3 witness: the shape guarantee and the search-exception conversion at
a concrete all-raising client. -/
theorem c3_total_resolution_witness :
    get_track_preview (some errClient) "s" "a" = (none, some (notFoundMsg "s" "a")) :=
  (c3_total_resolution (some errClient) "s" "a").2 errClient "boom" rfl rfl

/-- C4 counterexample: `tierClient` raises on the tier-(a) query but would
answer the tier-(b) query "song artist" with a usable candidate; the code
nevertheless returns no result at all — the later, looser tiers are NOT
attempted after a transport failure. -/
theorem c4_counterexample :
    tierClient.search "song artist" "track" 10 "US" = Except.ok [wTrackP] ∧
    (select_candidate "song" "artist" [wTrackP]).map create_track_info =
      some (create_track_info wTrackP) ∧
    search_track_with_preview tierClient "song" "artist" = none := by
  refine ⟨rfl, by decide, rfl⟩

/-- C4 (amended): a search transport failure during any query tier does
not crash the caller — the exception is caught and the entire tiered
search returns no result, with the remaining tiers NOT attempted — and the
caller then reports the not-found resolution failure. -/
theorem c4_transport_failure (sp : Client) (track_name artist_name q : String)
    (qs : List String) (e : String)
    (h : sp.search q "track" 10 "US" = Except.error e) :
    searchLoop sp track_name artist_name (q :: qs) = none ∧
    (search_track_with_preview sp track_name artist_name = none →
      get_track_preview (some sp) track_name artist_name =
        (none, some (notFoundMsg track_name artist_name))) := by
  constructor
  · simp [searchLoop, h]
  · intro h2
    simp [get_track_preview, h2]

/-- C4 witness: the transport failure of `tierClient` on its first query
aborts the whole tiered search and surfaces as the not-found report. -/
theorem c4_transport_failure_witness :
    searchLoop tierClient "song" "artist"
      ("track:\"song\" artist:\"artist\"" :: ["song artist", "song"]) = none ∧
    get_track_preview (some tierClient) "song" "artist" =
      (none, some (notFoundMsg "song" "artist")) := by
  have h := c4_transport_failure tierClient "song" "artist"
    "track:\"song\" artist:\"artist\"" ["song artist", "song"] "network down" rfl
  exact ⟨h.1, h.2 rfl⟩

/-- C5: when the feature fetch returns a usable record, each present 0-1
proportion is returned multiplied by 100, and tempo, loudness, key, mode
and time_signature pass through unscaled with the fixed per-field defaults
120, -5, 0, 1, 4 substituted for individually absent fields. -/
theorem c5_feature_scaling (sp : Client) (track_id : String) (a : RawAudioFeatures)
    (rest : List (Option RawAudioFeatures))
    (h : sp.audio_features track_id = Except.ok (some a :: rest)) :
    (∀ x, a.danceability = some x → (get_audio_features sp track_id).danceability = x * 100) ∧
    (∀ x, a.energy = some x → (get_audio_features sp track_id).energy = x * 100) ∧
    (∀ x, a.speechiness = some x → (get_audio_features sp track_id).speechiness = x * 100) ∧
    (∀ x, a.acousticness = some x → (get_audio_features sp track_id).acousticness = x * 100) ∧
    (∀ x, a.instrumentalness = some x →
      (get_audio_features sp track_id).instrumentalness = x * 100) ∧
    (∀ x, a.liveness = some x → (get_audio_features sp track_id).liveness = x * 100) ∧
    (∀ x, a.valence = some x → (get_audio_features sp track_id).valence = x * 100) ∧
    (∀ x, a.tempo = some x → (get_audio_features sp track_id).tempo = x) ∧
    (a.tempo = none → (get_audio_features sp track_id).tempo = 120) ∧
    (∀ x, a.loudness = some x → (get_audio_features sp track_id).loudness = x) ∧
    (a.loudness = none → (get_audio_features sp track_id).loudness = -5) ∧
    (∀ x, a.key = some x → (get_audio_features sp track_id).key = x) ∧
    (a.key = none → (get_audio_features sp track_id).key = 0) ∧
    (∀ x, a.mode = some x → (get_audio_features sp track_id).mode = x) ∧
    (a.mode = none → (get_audio_features sp track_id).mode = 1) ∧
    (∀ x, a.time_signature = some x → (get_audio_features sp track_id).time_signature = x) ∧
    (a.time_signature = none → (get_audio_features sp track_id).time_signature = 4) := by
  have hg : get_audio_features sp track_id = scale_features a := by
    simp [get_audio_features, h]
  rw [hg]
  refine ⟨?_, ?_, ?_, ?_, ?_, ?_, ?_, ?_, ?_, ?_, ?_, ?_, ?_, ?_, ?_, ?_, ?_⟩ <;>
    first
      | (intro x hx; simp [scale_features, hx])
      | (intro hx; simp [scale_features, hx])

/-- C5 witness: a fully populated raw record is scaled field by field. -/
theorem c5_feature_scaling_witness :
    (get_audio_features w5client "id").danceability = 50 ∧
    (get_audio_features w5client "id").energy = 100 ∧
    (get_audio_features w5client "id").valence = 10 ∧
    (get_audio_features w5client "id").tempo = 130 ∧
    (get_audio_features w5client "id").loudness = -7 := by
  have h := c5_feature_scaling w5client "id" w5raw [] rfl
  obtain ⟨h1, h2, -, -, -, -, h7, h8, -, h10, -⟩ := h
  refine ⟨?_, ?_, ?_, ?_, ?_⟩
  · rw [h1 (1/2) rfl]; norm_num
  · rw [h2 1 rfl]; norm_num
  · rw [h7 (1/10) rfl]; norm_num
  · exact h8 130 rfl
  · exact h10 (-7) rfl

/-- C6: when the feature call raises, or returns no usable record (empty
list or a null first entry), the entire fixed default bundle is returned
verbatim; the condition is never surfaced as an error — whenever the
search chose a candidate, resolution still returns a record. -/
theorem c6_feature_defaults (sp : Client) (track_id : String) :
    (∀ e, sp.audio_features track_id = Except.error e →
      get_audio_features sp track_id = default_features) ∧
    (sp.audio_features track_id = Except.ok [] →
      get_audio_features sp track_id = default_features) ∧
    (∀ rest, sp.audio_features track_id = Except.ok (none :: rest) →
      get_audio_features sp track_id = default_features) ∧
    default_features =
      { danceability := 50, energy := 50, speechiness := 10, acousticness := 30,
        instrumentalness := 20, liveness := 15, valence := 50, tempo := 120,
        loudness := -5, key := 0, mode := 1, time_signature := 4 } ∧
    (∀ track_name artist_name info,
      search_track_with_preview sp track_name artist_name = some info →
      (get_track_preview (some sp) track_name artist_name).1.isSome = true) := by
  refine ⟨?_, ?_, ?_, rfl, ?_⟩
  · intro e he
    simp [get_audio_features, he]
  · intro he
    simp [get_audio_features, he]
  · intro rest he
    simp [get_audio_features, he]
  · intro track_name artist_name info hs
    cases htr : truthyStr info.preview_url <;> simp [get_track_preview, hs, htr]

/-- C6 witness: the all-raising client yields the default bundle, and the
client whose feature call raises still resolves to a record. -/
theorem c6_feature_defaults_witness :
    get_audio_features errClient "id" = default_features ∧
    (get_track_preview (some wClientOk) "song" "artist").1.isSome = true := by
  have h := c6_feature_defaults errClient "id"
  have h2 := c6_feature_defaults wClientOk "id"
  exact ⟨h.1 "boom" rfl, h2.2.2.2.2 "song" "artist" (create_track_info wTrackP) rfl⟩

/-- C7: when every query tier returns an empty result set, resolution
returns absent together with the not-found reason, whose text contains
both the requested title and the requested artist. -/
theorem c7_not_found (sp : Client) (track_name artist_name : String)
    (h : ∀ q ∈ search_queries track_name artist_name,
      sp.search q "track" 10 "US" = Except.ok []) :
    get_track_preview (some sp) track_name artist_name =
      (none, some (notFoundMsg track_name artist_name)) ∧
    containsSub track_name.data (notFoundMsg track_name artist_name).data = true ∧
    containsSub artist_name.data (notFoundMsg track_name artist_name).data = true := by
  simp only [search_queries, List.mem_cons, List.not_mem_nil, or_false, forall_eq_or_imp,
    forall_eq] at h
  obtain ⟨h1, h2, h3⟩ := h
  refine ⟨?_, ?_, ?_⟩
  · have hs : search_track_with_preview sp track_name artist_name = none := by
      simp [search_track_with_preview, search_queries, searchLoop, h1, h2, h3]
    simp [get_track_preview, hs]
  · have hd : (notFoundMsg track_name artist_name).data =
        ("Track " ++ apos).data ++ track_name.data ++
          (apos ++ " by " ++ apos ++ artist_name ++ apos ++ " not found on Spotify.").data := by
      simp [notFoundMsg, String.data_append]
    rw [hd]
    exact containsSub_middle _ _ _
  · have hd : (notFoundMsg track_name artist_name).data =
        ("Track " ++ apos ++ track_name ++ apos ++ " by " ++ apos).data ++ artist_name.data ++
          (apos ++ " not found on Spotify.").data := by
      simp [notFoundMsg, String.data_append]
    rw [hd]
    exact containsSub_middle _ _ _

/-- C7 witness: a client with three empty tiers at ("song", "artist"). -/
theorem c7_not_found_witness :
    get_track_preview (some { search := fun _ _ _ _ => Except.ok []
                              audio_features := fun _ => Except.error "x" })
        "song" "artist" =
      (none, some (notFoundMsg "song" "artist")) ∧
    containsSub "song".data (notFoundMsg "song" "artist").data = true ∧
    containsSub "artist".data (notFoundMsg "song" "artist").data = true :=
  c7_not_found _ "song" "artist" (fun _ _ => rfl)

theorem scaled_in_range (o : Option ℚ) (ho : ∀ x, o = some x → 0 ≤ x ∧ x ≤ 1) :
    0 ≤ o.getD 0 * 100 ∧ o.getD 0 * 100 ≤ 100 := by
  cases o with
  | none => norm_num
  | some x =>
    have hx := ho x rfl
    simp only [Option.getD_some]
    constructor <;> nlinarith [hx.1, hx.2]

/-- C8: on successful resolution the completed record is returned, with
the preview-unavailable advisory exactly when the chosen candidate's
preview URL is absent, and with no second component when a preview URL is
present. -/
theorem c8_advisory (sp : Client) (track_name artist_name : String) (info : TrackInfo)
    (h : search_track_with_preview sp track_name artist_name = some info) :
    (get_track_preview (some sp) track_name artist_name).1 =
      some { info := info
             audio_features := get_audio_features sp info.id
             alternatives := get_alternative_preview_url track_name artist_name } ∧
    ((get_track_preview (some sp) track_name artist_name).2 = some previewAdvisory ↔
      truthyStr info.preview_url = false) ∧
    (truthyStr info.preview_url = true →
      (get_track_preview (some sp) track_name artist_name).2 = none) := by
  cases htr : truthyStr info.preview_url with
  | false => simp [get_track_preview, h, htr]
  | true => simp [get_track_preview, h, htr]

/-- C8 witness: a preview-bearing candidate resolves with no advisory; the
same candidate stripped of its preview resolves with the advisory. -/
theorem c8_advisory_witness :
    (get_track_preview (some wClientOk) "song" "artist").2 = none := by
  have h := c8_advisory wClientOk "song" "artist" (create_track_info wTrackP) rfl
  exact h.2.2 rfl

/-- C9: every successfully resolved record carries the AlternativeLinks
computed purely from the input title/artist text, and a FeatureSet that is
wholesale either the scaled service record or the default bundle (so
tempo, loudness, key, mode, time_signature are always present); under the
precondition that the service's proportions lie in [0,1], every proportion
field of the record lies in [0,100]. -/
theorem c9_invariants (sp : Client) (track_name artist_name : String)
    (track : CanonicalTrack) (adv : Option String)
    (h : get_track_preview (some sp) track_name artist_name = (some track, adv))
    (hp : ∀ fs, sp.audio_features track.info.id = Except.ok fs →
      ∀ a, fs.head? = some (some a) → unitProps a) :
    track.alternatives = get_alternative_preview_url track_name artist_name ∧
    (track.audio_features = default_features ∨
      ∃ a, track.audio_features = scale_features a) ∧
    inRange track.audio_features := by
  cases hs : search_track_with_preview sp track_name artist_name with
  | none => simp [get_track_preview, hs] at h
  | some info =>
    have htrack : track =
        { info := info
          audio_features := get_audio_features sp info.id
          alternatives := get_alternative_preview_url track_name artist_name } := by
      cases htr : truthyStr info.preview_url <;>
        (simp [get_track_preview, hs, htr] at h; exact h.1.symm)
    have hid : track.info.id = info.id := by rw [htrack]
    rw [hid] at hp
    refine ⟨by rw [htrack], ?_, ?_⟩
    · rw [htrack]
      cases haf : sp.audio_features info.id with
      | error e => exact Or.inl (by simp [get_audio_features, haf])
      | ok fs =>
        cases hh : fs.head? with
        | none => exact Or.inl (by simp [get_audio_features, haf, hh])
        | some oa =>
          cases oa with
          | none => exact Or.inl (by simp [get_audio_features, haf, hh])
          | some a => exact Or.inr ⟨a, by simp [get_audio_features, haf, hh]⟩
    · rw [htrack]
      show inRange (get_audio_features sp info.id)
      cases haf : sp.audio_features info.id with
      | error e =>
        simp only [get_audio_features, haf]
        refine ⟨?_, ?_, ?_, ?_, ?_, ?_, ?_⟩ <;> norm_num [default_features, inRange]
      | ok fs =>
        cases hh : fs.head? with
        | none =>
          simp only [get_audio_features, haf, hh]
          refine ⟨?_, ?_, ?_, ?_, ?_, ?_, ?_⟩ <;> norm_num [default_features, inRange]
        | some oa =>
          cases oa with
          | none =>
            simp only [get_audio_features, haf, hh]
            refine ⟨?_, ?_, ?_, ?_, ?_, ?_, ?_⟩ <;> norm_num [default_features, inRange]
          | some a =>
            have hu := hp fs haf a hh
            have hg : get_audio_features sp info.id = scale_features a := by
              simp [get_audio_features, haf, hh]
            rw [hg]
            obtain ⟨u1, u2, u3, u4, u5, u6, u7⟩ := hu
            exact ⟨scaled_in_range _ u1, scaled_in_range _ u2, scaled_in_range _ u3,
              scaled_in_range _ u4, scaled_in_range _ u5, scaled_in_range _ u6,
              scaled_in_range _ u7⟩

/-- C9 witness: the record resolved by `wClientOk` (whose feature call
raises) carries the input-derived links and an in-range default bundle. -/
theorem c9_invariants_witness :
    w9track.alternatives = get_alternative_preview_url "song" "artist" ∧
    (w9track.audio_features = default_features ∨
      ∃ a, w9track.audio_features = scale_features a) ∧
    inRange w9track.audio_features :=
  c9_invariants wClientOk "song" "artist" w9track none rfl
    (by intro fs hfs a hh; simp [wClientOk] at hfs)

/-- C10: when the fetch returns a usable record, the result is the scaled
record itself (never the default bundle), and each individually absent
proportion field is reported as 0 rather than its documented non-zero
default. -/
theorem c10_missing_proportion_zero (sp : Client) (track_id : String)
    (a : RawAudioFeatures) (rest : List (Option RawAudioFeatures))
    (h : sp.audio_features track_id = Except.ok (some a :: rest)) :
    get_audio_features sp track_id = scale_features a ∧
    (a.danceability = none → (get_audio_features sp track_id).danceability = 0) ∧
    (a.energy = none → (get_audio_features sp track_id).energy = 0) ∧
    (a.speechiness = none → (get_audio_features sp track_id).speechiness = 0) ∧
    (a.acousticness = none → (get_audio_features sp track_id).acousticness = 0) ∧
    (a.instrumentalness = none → (get_audio_features sp track_id).instrumentalness = 0) ∧
    (a.liveness = none → (get_audio_features sp track_id).liveness = 0) ∧
    (a.valence = none → (get_audio_features sp track_id).valence = 0) := by
  have hg : get_audio_features sp track_id = scale_features a := by
    simp [get_audio_features, h]
  refine ⟨hg, ?_, ?_, ?_, ?_, ?_, ?_, ?_⟩ <;>
    (intro hx; simp [hg, scale_features, hx])

/-- C10 witness: a usable record with every proportion absent yields 0 in
every proportion field — not the documented defaults 50, 50, 10, 30, 20,
15, 50. -/
theorem c10_missing_proportion_zero_witness :
    (get_audio_features w10client "id").danceability = 0 ∧
    (get_audio_features w10client "id").speechiness = 0 ∧
    (get_audio_features w10client "id").valence = 0 ∧
    get_audio_features w10client "id" ≠ default_features := by
  have h := c10_missing_proportion_zero w10client "id" w10raw [] rfl
  refine ⟨h.2.1 rfl, h.2.2.2.1 rfl, h.2.2.2.2.2.2.2 rfl, ?_⟩
  intro hc
  have h0 := h.2.1 rfl
  rw [hc] at h0
  norm_num [default_features] at h0
